import Mathlib

/-!
# MQTT-SN client engine (PYNQ-Networking notebook 03_mqttsn_scapy)

A shallow embedding of the MQTT-SN protocol engine exercised by the
notebook `notebooks/03_mqttsn_scapy.ipynb`.  The notebook drives the engine
(`pynq_networking.lib.mqttsn_sw` packet classes and the `MQTT_Client`
session API); the engine itself is not part of the source tree, so its
packet codec, acknowledgment tracker, session machine and registry are
modelled from the specification (section 4 and the wire-format table of
section 6).  The notebook's own response-handling code (the
REGACK / SUBACK `isinstance` checks) is translated directly from the
notebook cells.

Byte sequences are `List Nat`; a well-formed wire byte is `< 256` but the
definitions are total over `Nat`.
-/

namespace MqttSN

/-- Modelled from the spec: `Packet` is "a tagged variant over all MQTT-SN
message types", each variant carrying exactly the fields of the wire-format
table (section 6): CONNECT, CONNACK, REGISTER, REGACK, PUBLISH, PUBACK,
SUBSCRIBE, SUBACK, plus the QoS-2 acknowledgments PUBREC/PUBREL/PUBCOMP
(msgId only) and DISCONNECT used by the session machine. -/
inductive Packet : Type
  | connect (flags : Nat) (protocolID : Nat) (duration : Nat) (clientId : List Nat)
  | connack (returnCode : Nat)
  | register (topicId : Nat) (msgId : Nat) (topicName : List Nat)
  | regack (topicId : Nat) (msgId : Nat) (returnCode : Nat)
  | publish (flags : Nat) (topicId : Nat) (msgId : Nat) (payload : List Nat)
  | puback (topicId : Nat) (msgId : Nat) (returnCode : Nat)
  | subscribe (flags : Nat) (msgId : Nat) (topicName : List Nat)
  | suback (flags : Nat) (topicId : Nat) (msgId : Nat) (returnCode : Nat)
  | pubrec (msgId : Nat)
  | pubrel (msgId : Nat)
  | pubcomp (msgId : Nat)
  | disconnect
  deriving DecidableEq, Repr

/-- Big-endian 16-bit encoding ("fixed 2-byte big-endian integers"). -/
def be16 (n : Nat) : List Nat := [n / 256, n % 256]

/-- Modelled from the spec: the type-specific part of a packet, a 1-byte
message-type tag followed by the fields of the wire-format table in network
byte order.  Tag values are the standard MQTT-SN message-type codes. -/
def encodeBody : Packet → List Nat
  | .connect flags protocolID duration clientId =>
      4 :: flags :: protocolID :: be16 duration ++ clientId
  | .connack returnCode => [5, returnCode]
  | .register topicId msgId topicName =>
      10 :: be16 topicId ++ be16 msgId ++ topicName
  | .regack topicId msgId returnCode =>
      11 :: be16 topicId ++ be16 msgId ++ [returnCode]
  | .publish flags topicId msgId payload =>
      12 :: flags :: be16 topicId ++ be16 msgId ++ payload
  | .puback topicId msgId returnCode =>
      13 :: be16 topicId ++ be16 msgId ++ [returnCode]
  | .subscribe flags msgId topicName =>
      18 :: flags :: be16 msgId ++ topicName
  | .suback flags topicId msgId returnCode =>
      19 :: flags :: be16 topicId ++ be16 msgId ++ [returnCode]
  | .pubrec msgId => 15 :: be16 msgId
  | .pubrel msgId => 16 :: be16 msgId
  | .pubcomp msgId => 14 :: be16 msgId
  | .disconnect => [24]

/-- Modelled from the spec: "every packet begins with a length field
(1 byte for lengths ≤ 255, else a 3-byte extended form: marker 0x01
followed by a 16-bit length)"; the length counts the whole packet, length
field included. -/
def encode (p : Packet) : List Nat :=
  if (encodeBody p).length + 1 ≤ 255 then
    ((encodeBody p).length + 1) :: encodeBody p
  else
    1 :: be16 ((encodeBody p).length + 3) ++ encodeBody p

/-- The only decode failure of the model: the spec's `MalformedPacket`. -/
inductive DecodeError : Type
  | malformedPacket
  deriving DecidableEq, Repr

/-- Modelled from the spec: strip and validate the length field; `none`
when the declared length does not match the buffer size (or the length
field itself is truncated). -/
def stripLen : List Nat → Option (List Nat)
  | [] => none
  | b :: rest =>
      if b == 1 then
        match rest with
        | h :: l :: rest2 =>
            if h * 256 + l == rest2.length + 3 then some rest2 else none
        | _ => none
      else
        if b == rest.length + 1 then some rest else none

/-- Modelled from the spec: decode the type tag and type-specific fields of
the wire-format table.  Variable-length trailing fields (client id, topic
name, payload) consume the remainder; an unrecognized tag or a truncated
fixed-size field is `MalformedPacket`. -/
def decodeBody : List Nat → Except DecodeError Packet
  | [] => .error .malformedPacket
  | t :: rest =>
      if t == 4 then
        match rest with
        | flags :: protocolID :: d1 :: d2 :: clientId =>
            .ok (.connect flags protocolID (d1 * 256 + d2) clientId)
        | _ => .error .malformedPacket
      else if t == 5 then
        match rest with
        | returnCode :: _ => .ok (.connack returnCode)
        | _ => .error .malformedPacket
      else if t == 10 then
        match rest with
        | t1 :: t2 :: m1 :: m2 :: topicName =>
            .ok (.register (t1 * 256 + t2) (m1 * 256 + m2) topicName)
        | _ => .error .malformedPacket
      else if t == 11 then
        match rest with
        | t1 :: t2 :: m1 :: m2 :: returnCode :: _ =>
            .ok (.regack (t1 * 256 + t2) (m1 * 256 + m2) returnCode)
        | _ => .error .malformedPacket
      else if t == 12 then
        match rest with
        | flags :: t1 :: t2 :: m1 :: m2 :: payload =>
            .ok (.publish flags (t1 * 256 + t2) (m1 * 256 + m2) payload)
        | _ => .error .malformedPacket
      else if t == 13 then
        match rest with
        | t1 :: t2 :: m1 :: m2 :: returnCode :: _ =>
            .ok (.puback (t1 * 256 + t2) (m1 * 256 + m2) returnCode)
        | _ => .error .malformedPacket
      else if t == 18 then
        match rest with
        | flags :: m1 :: m2 :: topicName =>
            .ok (.subscribe flags (m1 * 256 + m2) topicName)
        | _ => .error .malformedPacket
      else if t == 19 then
        match rest with
        | flags :: t1 :: t2 :: m1 :: m2 :: returnCode :: _ =>
            .ok (.suback flags (t1 * 256 + t2) (m1 * 256 + m2) returnCode)
        | _ => .error .malformedPacket
      else if t == 15 then
        match rest with
        | m1 :: m2 :: _ => .ok (.pubrec (m1 * 256 + m2))
        | _ => .error .malformedPacket
      else if t == 16 then
        match rest with
        | m1 :: m2 :: _ => .ok (.pubrel (m1 * 256 + m2))
        | _ => .error .malformedPacket
      else if t == 14 then
        match rest with
        | m1 :: m2 :: _ => .ok (.pubcomp (m1 * 256 + m2))
        | _ => .error .malformedPacket
      else if t == 24 then
        .ok .disconnect
      else
        .error .malformedPacket

/-- Modelled from the spec: `decode(byte sequence) -> Packet or DecodeError`:
validate the length field, then decode tag and fields. -/
def decode (bs : List Nat) : Except DecodeError Packet :=
  match stripLen bs with
  | none => .error .malformedPacket
  | some body => decodeBody body

theorem encodeBody_length_pos (p : Packet) : 1 ≤ (encodeBody p).length := by
  cases p <;> simp [encodeBody, be16]

theorem stripLen_encode (p : Packet) : stripLen (encode p) = some (encodeBody p) := by
  unfold encode
  split
  · have h1 : 1 ≤ (encodeBody p).length := encodeBody_length_pos p
    unfold stripLen
    have hne : ((encodeBody p).length + 1 == 1) = false := by
      simp only [beq_eq_false_iff_ne, ne_eq]
      omega
    simp [hne]
  · unfold stripLen
    simp only [be16, List.cons_append, List.nil_append, List.length_cons]
    have : ((encodeBody p).length + 3) / 256 * 256 + ((encodeBody p).length + 3) % 256
        = (encodeBody p).length + 3 := by omega
    simp [this]

theorem decodeBody_encodeBody (p : Packet) : decodeBody (encodeBody p) = .ok p := by
  cases p <;> simp [encodeBody, decodeBody, be16] <;> omega

/-- Claim C1: decoding the encoding of any constructible packet value gives
back the same value: `decode (encode p) = .ok p`. -/
theorem decode_encode (p : Packet) : decode (encode p) = .ok p := by
  unfold decode
  rw [stripLen_encode]
  exact decodeBody_encodeBody p

/-- The message-type tags the decoder recognizes. -/
def knownTag (t : Nat) : Bool :=
  t == 4 || t == 5 || t == 10 || t == 11 || t == 12 || t == 13 || t == 18 ||
    t == 19 || t == 15 || t == 16 || t == 14 || t == 24

/-- Bytes required after the length field (tag plus fixed-size fields) for
each recognized tag; variable-length trailing fields may be empty. -/
def minBodyLen (t : Nat) : Nat :=
  if t == 4 then 5
  else if t == 5 then 2
  else if t == 10 then 5
  else if t == 11 then 6
  else if t == 12 then 6
  else if t == 13 then 6
  else if t == 18 then 4
  else if t == 19 then 7
  else if t == 15 then 3
  else if t == 16 then 3
  else if t == 14 then 3
  else 1

/-- The length the packet declares for itself, read from the length field
alone (`none` when even the length field is truncated). -/
def declaredLen : List Nat → Option Nat
  | [] => none
  | b :: rest =>
      if b == 1 then
        match rest with
        | h :: l :: _ => some (h * 256 + l)
        | _ => none
      else some b

/-- Failure condition 1 of the spec: "the declared length does not match
the buffer size" (an unreadable length field counts as a mismatch). -/
def lengthMismatch (bs : List Nat) : Bool :=
  match declaredLen bs with
  | none => true
  | some n => n != bs.length

/-- Has the (length-validated) body an unrecognized leading type tag? -/
def bodyUnknownTag : List Nat → Bool
  | [] => false
  | t :: _ => !knownTag t

/-- Has the (length-validated) body a recognized tag whose fixed-size
fields do not fit in the remaining bytes (or no room for the tag byte)? -/
def bodyTruncated : List Nat → Bool
  | [] => true
  | t :: rest => knownTag t && decide (rest.length + 1 < minBodyLen t)

/-- Failure condition 2 of the spec: "the type tag is unrecognized"
(judged on a buffer whose length field validates). -/
def unknownTag (bs : List Nat) : Bool :=
  ((stripLen bs).map bodyUnknownTag).getD false

/-- Failure condition 3 of the spec: "a fixed-size field is truncated":
a recognized tag whose fixed fields do not fit in the remaining bytes, or
a validated buffer with no room for the tag byte at all. -/
def truncatedField (bs : List Nat) : Bool :=
  ((stripLen bs).map bodyTruncated).getD false

/-- Body-level malformedness: no tag, unknown tag, or fixed fields missing. -/
def bodyMalformed (body : List Nat) : Bool :=
  match body with
  | [] => true
  | t :: rest => !knownTag t || decide (rest.length + 1 < minBodyLen t)

theorem stripLen_none_iff (bs : List Nat) :
    stripLen bs = none ↔ lengthMismatch bs = true := by
  rcases bs with _ | ⟨b, rest⟩
  · simp [stripLen, lengthMismatch, declaredLen]
  by_cases h1 : b = 1
  · subst h1
    rcases rest with _ | ⟨h, _ | ⟨l, rest2⟩⟩ <;>
      simp [stripLen, lengthMismatch, declaredLen]
  · simp only [stripLen, lengthMismatch, declaredLen, beq_iff_eq, if_neg h1]
    simp [List.length_cons]

theorem decodeBody_error_iff (body : List Nat) :
    decodeBody body = .error .malformedPacket ↔ bodyMalformed body = true := by
  rcases body with _ | ⟨t, rest⟩
  · simp [decodeBody, bodyMalformed]
  by_cases h4 : t = 4
  · subst h4
    rcases rest with _ | ⟨a, _ | ⟨b, _ | ⟨c, _ | ⟨d, tl⟩⟩⟩⟩ <;>
      simp [decodeBody, bodyMalformed, knownTag, minBodyLen]
  by_cases h5 : t = 5
  · subst h5
    rcases rest with _ | ⟨a, tl⟩ <;>
      simp [decodeBody, bodyMalformed, knownTag, minBodyLen]
  by_cases h10 : t = 10
  · subst h10
    rcases rest with _ | ⟨a, _ | ⟨b, _ | ⟨c, _ | ⟨d, tl⟩⟩⟩⟩ <;>
      simp [decodeBody, bodyMalformed, knownTag, minBodyLen]
  by_cases h11 : t = 11
  · subst h11
    rcases rest with _ | ⟨a, _ | ⟨b, _ | ⟨c, _ | ⟨d, _ | ⟨e, tl⟩⟩⟩⟩⟩ <;>
      simp [decodeBody, bodyMalformed, knownTag, minBodyLen]
  by_cases h12 : t = 12
  · subst h12
    rcases rest with _ | ⟨a, _ | ⟨b, _ | ⟨c, _ | ⟨d, _ | ⟨e, tl⟩⟩⟩⟩⟩ <;>
      simp [decodeBody, bodyMalformed, knownTag, minBodyLen]
  by_cases h13 : t = 13
  · subst h13
    rcases rest with _ | ⟨a, _ | ⟨b, _ | ⟨c, _ | ⟨d, _ | ⟨e, tl⟩⟩⟩⟩⟩ <;>
      simp [decodeBody, bodyMalformed, knownTag, minBodyLen]
  by_cases h18 : t = 18
  · subst h18
    rcases rest with _ | ⟨a, _ | ⟨b, _ | ⟨c, tl⟩⟩⟩ <;>
      simp [decodeBody, bodyMalformed, knownTag, minBodyLen]
  by_cases h19 : t = 19
  · subst h19
    rcases rest with _ | ⟨a, _ | ⟨b, _ | ⟨c, _ | ⟨d, _ | ⟨e, _ | ⟨f, tl⟩⟩⟩⟩⟩⟩ <;>
      simp [decodeBody, bodyMalformed, knownTag, minBodyLen]
  by_cases h15 : t = 15
  · subst h15
    rcases rest with _ | ⟨a, _ | ⟨b, tl⟩⟩ <;>
      simp [decodeBody, bodyMalformed, knownTag, minBodyLen]
  by_cases h16 : t = 16
  · subst h16
    rcases rest with _ | ⟨a, _ | ⟨b, tl⟩⟩ <;>
      simp [decodeBody, bodyMalformed, knownTag, minBodyLen]
  by_cases h14 : t = 14
  · subst h14
    rcases rest with _ | ⟨a, _ | ⟨b, tl⟩⟩ <;>
      simp [decodeBody, bodyMalformed, knownTag, minBodyLen]
  by_cases h24 : t = 24
  · subst h24
    simp [decodeBody, bodyMalformed, knownTag, minBodyLen]
  · simp [decodeBody, bodyMalformed, knownTag, minBodyLen,
      h4, h5, h10, h11, h12, h13, h18, h19, h15, h16, h14, h24]

/-- Claim C6: `decode` fails with `MalformedPacket` exactly when the
declared length field does not match the buffer size, or the message-type
tag is unrecognized, or a fixed-size field is truncated; on every other
input it returns a packet. -/
theorem decode_malformed_iff (bs : List Nat) :
    (decode bs = .error .malformedPacket
        ↔ (lengthMismatch bs || unknownTag bs || truncatedField bs) = true)
  ∧ ((∃ p, decode bs = .ok p)
        ↔ (lengthMismatch bs || unknownTag bs || truncatedField bs) = false) := by
  have hmain : decode bs = .error .malformedPacket
      ↔ (lengthMismatch bs || unknownTag bs || truncatedField bs) = true := by
    unfold decode
    rcases hs : stripLen bs with _ | body
    · have hlm : lengthMismatch bs = true := (stripLen_none_iff bs).mp hs
      simp [hlm]
    · have hlm : lengthMismatch bs = false := by
        rcases hl : lengthMismatch bs
        · rfl
        · exact absurd ((stripLen_none_iff bs).mpr hl) (by simp [hs])
      have hut : unknownTag bs = bodyUnknownTag body := by
        unfold unknownTag
        rw [hs]
        rfl
      have htf : truncatedField bs = bodyTruncated body := by
        unfold truncatedField
        rw [hs]
        rfl
      rw [decodeBody_error_iff body, hlm, hut, htf]
      rcases body with _ | ⟨t, rest⟩
      · simp [bodyMalformed, bodyUnknownTag, bodyTruncated]
      · simp only [bodyMalformed, bodyUnknownTag, bodyTruncated, Bool.false_or]
        rcases hk : knownTag t <;> simp [hk]
  refine ⟨hmain, ?_⟩
  rcases hd : decode bs with e | p
  · rcases e
    have hcond := hmain.mp hd
    simp [hcond]
  · have hne : decode bs ≠ .error .malformedPacket := by simp [hd]
    have hcond : (lengthMismatch bs || unknownTag bs || truncatedField bs) = false := by
      rcases hc : (lengthMismatch bs || unknownTag bs || truncatedField bs)
      · rfl
      · exact absurd (hmain.mpr hc) hne
    simp [hcond]

/-! ## Acknowledgment tracker (spec section 4.3)

Modelled from the spec: `PendingRequest` correlates an outgoing request
with its reply; `await_ack` retries on timeout up to `max_retries` and the
matching rule is: same message identifier and the expected reply type for
the request kind. -/

/-- Modelled from the spec: the request kinds that await an acknowledgment
(CONNECT / REGISTER / SUBSCRIBE / PUBLISH at QoS 1 / the two phases of a
QoS-2 PUBLISH / UNSUBSCRIBE is unused by the notebook and omitted). -/
inductive RequestKind : Type
  | connectReq
  | registerReq
  | subscribeReq
  | publishQos1
  | publishQos2AwaitRec
  | publishQos2AwaitComp
  deriving DecidableEq, Repr

/-- Modelled from the spec: one in-flight request awaiting acknowledgment,
identified by its message identifier and request kind (the retry count and
resolution slot live in the `awaitAck` loop state below). -/
structure PendingRequest : Type where
  msgId : Nat
  kind : RequestKind
  deriving DecidableEq, Repr

/-- The message identifier carried by a reply packet, if any (CONNACK and
DISCONNECT carry none on the wire). -/
def replyMsgId : Packet → Option Nat
  | .regack _ m _ => some m
  | .puback _ m _ => some m
  | .suback _ _ m _ => some m
  | .pubrec m => some m
  | .pubrel m => some m
  | .pubcomp m => some m
  | _ => none

/-- Modelled from the spec: the expected reply type for each request kind —
CONNACK for CONNECT, REGACK for REGISTER, SUBACK for SUBSCRIBE, PUBACK for
QoS-1 PUBLISH, PUBREC then PUBCOMP for QoS-2 PUBLISH. -/
def isExpectedReply : RequestKind → Packet → Bool
  | .connectReq, .connack _ => true
  | .registerReq, .regack _ _ _ => true
  | .subscribeReq, .suback _ _ _ _ => true
  | .publishQos1, .puback _ _ _ => true
  | .publishQos2AwaitRec, .pubrec _ => true
  | .publishQos2AwaitComp, .pubcomp _ => true
  | _, _ => false

/-- Modelled from the spec: does the reply's message identifier match the
pending request's?  A reply that carries no identifier (CONNACK) can only
answer the sole identifier-less exchange, the CONNECT. -/
def replyIdMatches (req : PendingRequest) (pkt : Packet) : Bool :=
  match replyMsgId pkt with
  | some m => m == req.msgId
  | none => req.kind == .connectReq

/-- Outcome of offering one incoming packet to a pending request. -/
inductive ReplyOutcome : Type
  | resolved (pkt : Packet)
  | protocolError
  | ignored
  deriving DecidableEq, Repr

/-- Modelled from the spec: a reply resolves a PendingRequest only if its
message identifier matches and its type is the expected reply type;
a mismatched-type reply with a matching identifier is a `ProtocolError`
and does not resolve the wait; anything else is ignored as unrelated. -/
def handleReply (req : PendingRequest) (pkt : Packet) : ReplyOutcome :=
  if replyIdMatches req pkt then
    if isExpectedReply req.kind pkt then .resolved pkt
    else .protocolError
  else .ignored

/-- A packet resolves the request: identifier matches and type expected. -/
def resolves (req : PendingRequest) (pkt : Packet) : Bool :=
  replyIdMatches req pkt && isExpectedReply req.kind pkt

/-- Resolution of an `await_ack` wait. -/
inductive AckResult : Type
  | acked (pkt : Packet)
  | timedOut
  deriving DecidableEq, Repr

/-- Modelled from the spec: the retry loop of `await_ack`.  `recv n` is
what the transport delivers during attempt number `n` (`none`: the attempt
times out); `fuel` is the number of attempts still allowed and `sent` the
number of attempts already made.  A delivered packet that does not resolve
the request (wrong identifier, or matching identifier but unexpected type,
reported as `ProtocolError`) leaves the wait unresolved and the attempt
ends in a retry; after the attempts are exhausted the wait resolves to
`Timeout`.  Returns the resolution and the total number of attempts. -/
def awaitAckLoop (recv : Nat → Option Packet) (req : PendingRequest) :
    Nat → Nat → AckResult × Nat
  | 0, sent => (.timedOut, sent)
  | fuel + 1, sent =>
      match recv sent with
      | some pkt =>
          if resolves req pkt then (.acked pkt, sent + 1)
          else awaitAckLoop recv req fuel (sent + 1)
      | none => awaitAckLoop recv req fuel (sent + 1)

/-- Modelled from the spec: `await_ack(message_id, request_kind, timeout,
max_retries)`: run up to `maxRetries` attempts from attempt 0. -/
def awaitAck (recv : Nat → Option Packet) (req : PendingRequest)
    (maxRetries : Nat) : AckResult × Nat :=
  awaitAckLoop recv req maxRetries 0

/-- Claim C2: a reply resolves a pending request exactly when its message
identifier matches and its type is the expected reply type for the request
kind; a reply whose identifier matches but whose type is not the expected
one is reported as `ProtocolError` and does not resolve the wait. -/
theorem handleReply_matching (req : PendingRequest) (pkt : Packet) :
    (handleReply req pkt = .resolved pkt
        ↔ replyIdMatches req pkt = true ∧ isExpectedReply req.kind pkt = true)
  ∧ (handleReply req pkt = .protocolError
        ↔ replyIdMatches req pkt = true ∧ isExpectedReply req.kind pkt = false) := by
  unfold handleReply
  rcases hid : replyIdMatches req pkt <;> rcases hex : isExpectedReply req.kind pkt <;>
    simp

theorem awaitAckLoop_never (recv : Nat → Option Packet) (req : PendingRequest)
    (hnone : ∀ n pkt, recv n = some pkt → resolves req pkt = false) :
    ∀ fuel sent, awaitAckLoop recv req fuel sent = (.timedOut, sent + fuel) := by
  intro fuel
  induction fuel with
  | zero => intro sent; simp [awaitAckLoop]
  | succ n ih =>
      intro sent
      unfold awaitAckLoop
      have harith : sent + 1 + n = sent + (n + 1) := by omega
      rcases hr : recv sent with _ | pkt
      · simp [hr, ih (sent + 1), harith]
      · simp [hr, hnone sent pkt hr, ih (sent + 1), harith]

/-- Claim C3: with a transport that never delivers a reply resolving the
request, `await_ack` resolves to `Timeout` after exactly `max_retries`
attempts — not more — and performs no further retry after resolving. -/
theorem awaitAck_exhaustion (recv : Nat → Option Packet) (req : PendingRequest)
    (maxRetries : Nat)
    (hnone : ∀ n pkt, recv n = some pkt → resolves req pkt = false) :
    awaitAck recv req maxRetries = (.timedOut, maxRetries) := by
  unfold awaitAck
  rw [awaitAckLoop_never recv req hnone maxRetries 0]
  exact congrArg _ (by omega)

/-- Witness for C3: a transport that never delivers anything times out a
QoS-1 PUBLISH wait after exactly its 3 allowed attempts. -/
theorem awaitAck_exhaustion_witness :
    awaitAck (fun _ => none) ⟨7, .publishQos1⟩ 3 = (.timedOut, 3) :=
  awaitAck_exhaustion (fun _ => none) ⟨7, .publishQos1⟩ 3
    (fun _ _ h => Option.noConfusion h)

/-! ## Client session state machine (spec section 4.4) -/

/-- Modelled from the spec: the session lifecycle states. -/
inductive SessionState : Type
  | disconnected
  | connecting
  | active
  | disconnecting
  deriving DecidableEq, Repr

/-- Modelled from the spec: `ClientSession` — lifecycle state, next
outgoing 16-bit message identifier, and the session's topic registry
(topic name ↦ broker-assigned topic ID). -/
structure Session : Type where
  state : SessionState
  nextMsgId : Nat
  topics : List (String × Nat)
  deriving DecidableEq, Repr

/-- Modelled from the spec: the flags bitfield — DUP (bit 7), QoS (bits
6-5), Retain (bit 4); Will, CleanSession and TopicIdType are unused by the
notebook's publishes and left 0. -/
def mkFlags (dup : Bool) (qos : Nat) (retain : Bool) : Nat :=
  (if dup then 128 else 0) + qos % 4 * 32 + (if retain then 16 else 0)

/-- Result of a `publish` call. -/
inductive PubResult : Type
  | accepted
  | timedOut
  | invalidState
  deriving DecidableEq, Repr

/-- Modelled from the spec: `publish(topic_id, payload, qos, retain)`,
valid only from `Active` (otherwise `InvalidState` with no I/O).  QoS 0:
send PUBLISH, no wait.  QoS 1: send PUBLISH, wait for PUBACK.  QoS 2: send
PUBLISH, wait for PUBREC, send PUBREL, wait for PUBCOMP.  `recv n` is what
the transport delivers during wait attempt `n`; the QoS-2 second wait
consumes the transport after the attempts used by the first.  Returns the
result, the packets handed to the transport in order, and the updated
session. -/
def publish (s : Session) (recv : Nat → Option Packet) (maxRetries : Nat)
    (topicId : Nat) (payload : List Nat) (qos : Nat) (retain : Bool) :
    PubResult × List Packet × Session :=
  if s.state = .active then
    let m := s.nextMsgId
    let pkt := Packet.publish (mkFlags false qos retain) topicId m payload
    let s2 : Session := { s with nextMsgId := (m + 1) % 65536 }
    if qos == 0 then (.accepted, [pkt], s2)
    else if qos == 1 then
      match awaitAck recv ⟨m, .publishQos1⟩ maxRetries with
      | (.acked _, _) => (.accepted, [pkt], s2)
      | (.timedOut, _) => (.timedOut, [pkt], s2)
    else
      match awaitAck recv ⟨m, .publishQos2AwaitRec⟩ maxRetries with
      | (.acked _, used) =>
          let rel := Packet.pubrel m
          match awaitAck (fun n => recv (used + n)) ⟨m, .publishQos2AwaitComp⟩ maxRetries with
          | (.acked _, _) => (.accepted, [pkt, rel], s2)
          | (.timedOut, _) => (.timedOut, [pkt, rel], s2)
      | (.timedOut, _) => (.timedOut, [pkt], s2)
  else (.invalidState, [], s)

theorem awaitAckLoop_acked_resolves (recv : Nat → Option Packet)
    (req : PendingRequest) :
    ∀ fuel sent pkt n, awaitAckLoop recv req fuel sent = (.acked pkt, n) →
      resolves req pkt = true := by
  intro fuel
  induction fuel with
  | zero => intro sent pkt n h; simp [awaitAckLoop] at h
  | succ k ih =>
      intro sent pkt n h
      unfold awaitAckLoop at h
      split at h
      · split at h
        · rename_i q heq hq
          rw [Prod.mk.injEq] at h
          rcases h with ⟨h1, h2⟩
          rw [AckResult.acked.injEq] at h1
          subst h1
          exact hq
        · exact ih (sent + 1) pkt n h
      · exact ih (sent + 1) pkt n h

theorem awaitAck_acked_resolves (recv : Nat → Option Packet)
    (req : PendingRequest) (maxRetries : Nat) (pkt : Packet) (n : Nat)
    (h : awaitAck recv req maxRetries = (.acked pkt, n)) :
    resolves req pkt = true :=
  awaitAckLoop_acked_resolves recv req maxRetries 0 pkt n h

theorem resolves_publishQos1 (m : Nat) (pkt : Packet)
    (h : resolves ⟨m, .publishQos1⟩ pkt = true) :
    ∃ tid rc, pkt = .puback tid m rc := by
  cases pkt <;>
    simp_all [resolves, replyIdMatches, replyMsgId, isExpectedReply]

theorem resolves_pubrec (m : Nat) (pkt : Packet)
    (h : resolves ⟨m, .publishQos2AwaitRec⟩ pkt = true) : pkt = .pubrec m := by
  cases pkt <;>
    simp_all [resolves, replyIdMatches, replyMsgId, isExpectedReply]

theorem resolves_pubcomp (m : Nat) (pkt : Packet)
    (h : resolves ⟨m, .publishQos2AwaitComp⟩ pkt = true) : pkt = .pubcomp m := by
  cases pkt <;>
    simp_all [resolves, replyIdMatches, replyMsgId, isExpectedReply]

/-- Claim C4: from the `Active` state, `publish` at QoS 0 hands exactly one
PUBLISH packet to the transport and returns success without consulting the
transport's replies; at QoS 1 it sends PUBLISH and returns success exactly
when the wait resolved with a matching PUBACK; at QoS 2 it sends PUBLISH,
and returns success exactly when the first wait resolved with a matching
PUBREC and the second with a matching PUBCOMP; whenever the PUBREC arrived,
a PUBREL was sent after the PUBLISH. -/
theorem publish_qos_contract (m : Nat) (ts : List (String × Nat))
    (recv : Nat → Option Packet) (maxRetries topicId : Nat)
    (payload : List Nat) (retain : Bool) :
    (publish ⟨.active, m, ts⟩ recv maxRetries topicId payload 0 retain
        = (.accepted, [Packet.publish (mkFlags false 0 retain) topicId m payload],
            ⟨.active, (m + 1) % 65536, ts⟩))
  ∧ (∀ recv2, publish ⟨.active, m, ts⟩ recv maxRetries topicId payload 0 retain
        = publish ⟨.active, m, ts⟩ recv2 maxRetries topicId payload 0 retain)
  ∧ ((publish ⟨.active, m, ts⟩ recv maxRetries topicId payload 1 retain).2.1
        = [Packet.publish (mkFlags false 1 retain) topicId m payload])
  ∧ ((publish ⟨.active, m, ts⟩ recv maxRetries topicId payload 1 retain).1 = .accepted
        ↔ ∃ tid rc attempts, awaitAck recv ⟨m, .publishQos1⟩ maxRetries
            = (.acked (Packet.puback tid m rc), attempts))
  ∧ ((publish ⟨.active, m, ts⟩ recv maxRetries topicId payload 2 retain).1 = .accepted
        ↔ ∃ used attempts2, awaitAck recv ⟨m, .publishQos2AwaitRec⟩ maxRetries
            = (.acked (Packet.pubrec m), used)
          ∧ awaitAck (fun n => recv (used + n)) ⟨m, .publishQos2AwaitComp⟩ maxRetries
            = (.acked (Packet.pubcomp m), attempts2))
  ∧ (∀ pkt used, awaitAck recv ⟨m, .publishQos2AwaitRec⟩ maxRetries = (.acked pkt, used)
        → (publish ⟨.active, m, ts⟩ recv maxRetries topicId payload 2 retain).2.1
            = [Packet.publish (mkFlags false 2 retain) topicId m payload,
               Packet.pubrel m]) := by
  refine ⟨rfl, fun recv2 => rfl, ?_, ?_, ?_, ?_⟩
  · show (publish ⟨.active, m, ts⟩ recv maxRetries topicId payload 1 retain).2.1 = _
    unfold publish
    simp only [if_pos rfl]
    rcases ha : awaitAck recv ⟨m, .publishQos1⟩ maxRetries with ⟨r, n⟩
    rcases r with pkt | _ <;> simp
  · unfold publish
    rcases ha : awaitAck recv ⟨m, .publishQos1⟩ maxRetries with ⟨r, n⟩
    rcases r with pkt | _
    · have hres := awaitAck_acked_resolves recv ⟨m, .publishQos1⟩ maxRetries pkt n ha
      rcases resolves_publishQos1 m pkt hres with ⟨tid, rc, rfl⟩
      simp [ha]
    · simp [ha]
  · unfold publish
    rcases ha : awaitAck recv ⟨m, .publishQos2AwaitRec⟩ maxRetries with ⟨r, n⟩
    rcases r with pkt | _
    · have hres := awaitAck_acked_resolves recv ⟨m, .publishQos2AwaitRec⟩ maxRetries pkt n ha
      have hpkt := resolves_pubrec m pkt hres
      subst hpkt
      rcases hb : awaitAck (fun k => recv (n + k)) ⟨m, .publishQos2AwaitComp⟩ maxRetries
        with ⟨r2, n2⟩
      rcases r2 with pkt2 | _
      · have hres2 := awaitAck_acked_resolves _ ⟨m, .publishQos2AwaitComp⟩ maxRetries pkt2 n2 hb
        have hpkt2 := resolves_pubcomp m pkt2 hres2
        subst hpkt2
        simp [ha, hb]
      · simp [ha, hb]
    · simp [ha]
  · intro pkt used ha
    unfold publish
    rcases hb : awaitAck (fun k => recv (used + k)) ⟨m, .publishQos2AwaitComp⟩ maxRetries
      with ⟨r2, n2⟩
    rcases r2 with pkt2 | _ <;> simp [ha, hb]

/-- Witness for C4: a transport that answers the QoS-2 waits with the
matching PUBREC then PUBCOMP leads to exactly PUBLISH followed by PUBREL
on the wire. -/
theorem publish_qos_contract_witness :
    (publish ⟨.active, 5, []⟩
        (fun n => if n == 0 then some (Packet.pubrec 5) else some (Packet.pubcomp 5))
        3 1 [102] 2 false).2.1
      = [Packet.publish (mkFlags false 2 false) 1 5 [102], Packet.pubrel 5] :=
  (publish_qos_contract 5 []
      (fun n => if n == 0 then some (Packet.pubrec 5) else some (Packet.pubcomp 5))
      3 1 [102] false).2.2.2.2.2 (Packet.pubrec 5) 1 (by decide)

/-- Claim C5: `publish` called on a session in the `Disconnected` state
fails with `InvalidState`, hands no packet to the transport, and leaves
the session unchanged. -/
theorem publish_disconnected (m : Nat) (ts : List (String × Nat))
    (recv : Nat → Option Packet) (maxRetries topicId : Nat)
    (payload : List Nat) (qos : Nat) (retain : Bool) :
    publish ⟨.disconnected, m, ts⟩ recv maxRetries topicId payload qos retain
      = (.invalidState, [], ⟨.disconnected, m, ts⟩) := rfl

/-! ## Topic registry (spec section 4.2) and broker ID assignment -/

/-- Look a topic name up in a registry (name ↦ topic ID association list). -/
def lookupName (l : List (String × Nat)) (name : String) : Option Nat :=
  match l with
  | [] => none
  | (n, i) :: rest => if n == name then some i else lookupName rest name

/-- Insert or replace the binding for `name`, keeping one binding per name. -/
def insertBinding (name : String) (tid : Nat) (l : List (String × Nat)) :
    List (String × Nat) :=
  match l with
  | [] => [(name, tid)]
  | (n, i) :: rest =>
      if n == name then (n, tid) :: rest
      else (n, i) :: insertBinding name tid rest

/-- Modelled from the spec: the broker side of the REGISTER / SUBSCRIBE
exchange, which is an external collaborator not in the source tree — it
assigns a fresh numeric topic ID to each newly seen topic name (returned in
REGACK / SUBACK) and returns the existing ID for a name it already knows. -/
structure BrokerState : Type where
  nextTopicId : Nat
  assigned : List (String × Nat)
  deriving DecidableEq, Repr

/-- Modelled from the spec: broker topic-ID assignment — fresh IDs for new
names, stable IDs for known names. -/
def brokerAssign (br : BrokerState) (name : String) : Nat × BrokerState :=
  match lookupName br.assigned name with
  | some i => (i, br)
  | none => (br.nextTopicId,
      ⟨br.nextTopicId + 1, (name, br.nextTopicId) :: br.assigned⟩)

/-- Modelled from the spec: the success path of `register(topic_name)` —
REGISTER sent, REGACK(return-code 0) received with the broker-assigned
topic ID, which the session records in its registry. -/
def registerTopic (br : BrokerState) (s : Session) (name : String) :
    Nat × BrokerState × Session :=
  match brokerAssign br name with
  | (tid, br2) => (tid, br2, { s with topics := insertBinding name tid s.topics })

/-- Modelled from the spec: the success path of `subscribe(topic_name)` —
SUBSCRIBE sent, SUBACK received with the broker-assigned topic ID, which
the session records in its registry. -/
def subscribeTopic (br : BrokerState) (s : Session) (name : String) :
    Nat × BrokerState × Session :=
  match brokerAssign br name with
  | (tid, br2) => (tid, br2, { s with topics := insertBinding name tid s.topics })

/-- The registry invariant of the spec: each registered topic name maps to
exactly one active topic ID (no duplicate names). -/
def FunctionalRegistry (l : List (String × Nat)) : Prop :=
  (l.map Prod.fst).Nodup

theorem mem_keys_insertBinding (name x : String) (tid : Nat) :
    ∀ l : List (String × Nat),
      x ∈ (insertBinding name tid l).map Prod.fst →
        x = name ∨ x ∈ l.map Prod.fst := by
  intro l
  induction l with
  | nil => simp [insertBinding]
  | cons hd tl ih =>
      rcases hd with ⟨n, i⟩
      by_cases hn : n = name
      · subst hn
        simp [insertBinding]
      · simp only [insertBinding, beq_iff_eq, if_neg hn, List.map_cons,
          List.mem_cons]
        rintro (rfl | hx)
        · exact Or.inr (Or.inl rfl)
        · rcases ih hx with h1 | h2
          · exact Or.inl h1
          · exact Or.inr (Or.inr h2)

theorem insertBinding_functional (name : String) (tid : Nat) :
    ∀ l : List (String × Nat), FunctionalRegistry l →
      FunctionalRegistry (insertBinding name tid l) := by
  intro l
  induction l with
  | nil => intro _; simp [insertBinding, FunctionalRegistry]
  | cons hd tl ih =>
      rcases hd with ⟨n, i⟩
      intro h
      simp only [FunctionalRegistry, List.map_cons, List.nodup_cons] at h
      rcases h with ⟨hn1, hn2⟩
      by_cases hn : n = name
      · subst hn
        simp only [FunctionalRegistry, insertBinding, beq_self_eq_true,
          if_true, List.map_cons, List.nodup_cons]
        exact ⟨hn1, hn2⟩
      · simp only [FunctionalRegistry, insertBinding, beq_iff_eq, if_neg hn,
          List.map_cons, List.nodup_cons]
        refine ⟨?_, ih hn2⟩
        intro hmem
        rcases mem_keys_insertBinding name n tid tl hmem with h1 | h2
        · exact hn h1
        · exact hn1 h2

theorem lookupName_insertBinding (name : String) (tid : Nat) :
    ∀ l : List (String × Nat), lookupName (insertBinding name tid l) name = some tid := by
  intro l
  induction l with
  | nil => simp [insertBinding, lookupName]
  | cons hd tl ih =>
      rcases hd with ⟨n, i⟩
      by_cases hn : n = name
      · subst hn
        simp [insertBinding, lookupName]
      · simp [insertBinding, lookupName, hn, ih]

/-- Claim C7: registering or subscribing preserves the one-ID-per-name
registry invariant and records the broker's ID for the name; and in the
notebook's scenario, registering "first_topic" on a fresh broker yields
topic ID 1 and a subsequent subscribe of "second_topic" yields topic
ID 2 ≠ 1. -/
theorem topic_registry_contract :
    (∀ (br : BrokerState) (s : Session) (name : String),
        FunctionalRegistry s.topics →
          FunctionalRegistry (registerTopic br s name).2.2.topics
        ∧ FunctionalRegistry (subscribeTopic br s name).2.2.topics)
  ∧ (∀ (br : BrokerState) (s : Session) (name : String),
        lookupName (registerTopic br s name).2.2.topics name
          = some (registerTopic br s name).1)
  ∧ ((registerTopic ⟨1, []⟩ ⟨.active, 1, []⟩ "first_topic").1 = 1
      ∧ (subscribeTopic (registerTopic ⟨1, []⟩ ⟨.active, 1, []⟩ "first_topic").2.1
          (registerTopic ⟨1, []⟩ ⟨.active, 1, []⟩ "first_topic").2.2
          "second_topic").1 = 2
      ∧ (2 : Nat) ≠ 1) := by
  refine ⟨?_, ?_, ?_⟩
  · intro br s name h
    rcases hb : brokerAssign br name with ⟨tid, br2⟩
    constructor
    · simp only [registerTopic, hb]
      exact insertBinding_functional name tid s.topics h
    · simp only [subscribeTopic, hb]
      exact insertBinding_functional name tid s.topics h
  · intro br s name
    rcases hb : brokerAssign br name with ⟨tid, br2⟩
    simp only [registerTopic, hb]
    exact lookupName_insertBinding name tid s.topics
  · refine ⟨rfl, rfl, by decide⟩

/-- Witness for C7: the invariant parts applied to the notebook's concrete
session — starting from an empty (trivially functional) registry, the
registry after registering "first_topic" is still functional and resolves
"first_topic" to the returned ID. -/
theorem topic_registry_contract_witness :
    FunctionalRegistry
        (registerTopic ⟨1, []⟩ ⟨.active, 1, []⟩ "first_topic").2.2.topics
  ∧ lookupName (registerTopic ⟨1, []⟩ ⟨.active, 1, []⟩ "first_topic").2.2.topics
        "first_topic"
      = some (registerTopic ⟨1, []⟩ ⟨.active, 1, []⟩ "first_topic").1 :=
  ⟨(topic_registry_contract.1 ⟨1, []⟩ ⟨.active, 1, []⟩ "first_topic"
      (by simp [FunctionalRegistry])).1,
    topic_registry_contract.2.1 ⟨1, []⟩ ⟨.active, 1, []⟩ "first_topic"⟩

/-! ## Scoped-resource pattern (spec section 6, `with MQTT_Client(...)`) -/

/-- How the body of the scope ends: normal completion or a raised error. -/
inductive ScopeOutcome (α : Type) : Type
  | ok (a : α)
  | failed

/-- Result of running a scoped client session. -/
structure ScopeResult (α : Type) : Type where
  outcome : ScopeOutcome α
  sent : List Packet
  transportReleased : Bool

/-- Modelled from the spec: `disconnect()` — sends DISCONNECT and
transitions to `Disconnected` once the local transport is released. -/
def disconnectSession (s : Session) : Session × List Packet :=
  ({ s with state := .disconnected }, [Packet.disconnect])

/-- Modelled from the spec: the scoped-acquisition pattern of
`with MQTT_Client(...) as client` — run the body, then on either exit path
(normal completion or an error raised inside the body) send DISCONNECT and
release the transport. -/
def withClientScope {α : Type} (s : Session)
    (body : Session → ScopeOutcome α × Session × List Packet) : ScopeResult α :=
  match body s with
  | (.ok a, s2, bodySent) =>
      match disconnectSession s2 with
      | (_, dSent) => ⟨.ok a, bodySent ++ dSent, true⟩
  | (.failed, s2, bodySent) =>
      match disconnectSession s2 with
      | (_, dSent) => ⟨.failed, bodySent ++ dSent, true⟩

/-- Claim C8: under the scoped-acquisition pattern, on every exit path —
normal completion or an error raised inside the body — a DISCONNECT packet
is sent and the transport is released. -/
theorem withClientScope_cleanup {α : Type} (s : Session)
    (body : Session → ScopeOutcome α × Session × List Packet) :
    Packet.disconnect ∈ (withClientScope s body).sent
  ∧ (withClientScope s body).transportReleased = true := by
  unfold withClientScope
  rcases body s with ⟨out, s2, bodySent⟩
  rcases out with a | _ <;>
    simp [disconnectSession]

/-! ## Default publish parameters (notebook cells 11 and 15) -/

/-- Modelled from the spec (section 9: "ambient default parameter"
convenience of the scapy packet classes): the `MQTTSN_PUBLISH` constructor
defaults filled in when the notebook omits a field — DUP 0, QoS 0,
Retain 0, msgId 0. -/
structure PublishDefaults : Type where
  dup : Bool
  qos : Nat
  retain : Bool
  msgId : Nat

/-- Modelled from the spec: the default field values of `MQTTSN_PUBLISH`. -/
def publishDefaults : PublishDefaults := ⟨false, 0, false, 0⟩

/-- The notebook's `MQTTSN_PUBLISH(topicID=t, message=m)` form (cell 11):
every omitted field takes its default. -/
def mkPublishDefault (topicID : Nat) (message : List Nat) : Packet :=
  Packet.publish
    (mkFlags publishDefaults.dup publishDefaults.qos publishDefaults.retain)
    topicID publishDefaults.msgId message

/-- The notebook's `MQTTSN_PUBLISH(qos=0, topicID=t, message=m)` form
(cell 15): qos given explicitly, the rest defaulted. -/
def mkPublishQos (qos : Nat) (topicID : Nat) (message : List Nat) : Packet :=
  Packet.publish (mkFlags publishDefaults.dup qos publishDefaults.retain)
    topicID publishDefaults.msgId message

/-- Claim C9: constructing and encoding a PUBLISH without specifying `qos`
produces the same byte sequence as constructing it with `qos=0` given
explicitly — the default QoS is 0, so the notebook's two publish forms are
equivalent on the wire. -/
theorem publish_default_qos_wire (t : Nat) (msg : List Nat) :
    encode (mkPublishDefault t msg) = encode (mkPublishQos 0 t msg) := rfl

/-! ## The notebook's response handling (cells 9 and 13) -/

/-- The notebook's reply classification: `ack[IP].payload` is either an
ICMP error packet or an MQTT-SN payload. -/
inductive Response : Type
  | icmpError
  | mqttsn (pkt : Packet)
  deriving DecidableEq, Repr

/-- Cell 9 of the notebook: after `sr1(... MQTTSN_REGISTER(topic=...))`,
`topicID` is assigned from `ack[MQTTSN_REGACK].topicID` only in the final
`else` branch — an ICMP error response or a non-REGACK response is printed
and leaves `topicID` holding whatever value it held before. -/
def registerResponseTopicID (prev : Option Nat) : Response → Option Nat
  | .icmpError => prev
  | .mqttsn pkt =>
      match pkt with
      | .regack tid _ _ => some tid
      | _ => prev

/-- Cell 13 of the notebook: after `sr1(... MQTTSN_SUBSCRIBE(topic=...))`,
`topicID` is assigned from `ack[MQTTSN_SUBACK].topicID` only in the final
`else` branch — an ICMP error response or a non-SUBACK response is printed
and leaves `topicID` holding whatever value it held before. -/
def subscribeResponseTopicID (prev : Option Nat) : Response → Option Nat
  | .icmpError => prev
  | .mqttsn pkt =>
      match pkt with
      | .suback _ tid _ _ => some tid
      | _ => prev

/-- Is the packet an `MQTTSN_REGACK` (the notebook's `isinstance` check)? -/
def isRegack : Packet → Bool
  | .regack _ _ _ => true
  | _ => false

/-- Is the packet an `MQTTSN_SUBACK` (the notebook's `isinstance` check)? -/
def isSuback : Packet → Bool
  | .suback _ _ _ _ => true
  | _ => false

/-- Claim C10: in the notebook's register and subscribe exchanges, an ICMP
error reply or a well-formed reply that is not the expected acknowledgment
type (REGACK for register, SUBACK for subscribe) leaves the stored
`topicID` unchanged; only a reply of the expected acknowledgment type
updates it (to the acknowledged topic ID). -/
theorem response_topicID_frame (prev : Option Nat) :
    (registerResponseTopicID prev .icmpError = prev)
  ∧ (∀ pkt, isRegack pkt = false →
      registerResponseTopicID prev (.mqttsn pkt) = prev)
  ∧ (∀ tid mid rc,
      registerResponseTopicID prev (.mqttsn (.regack tid mid rc)) = some tid)
  ∧ (subscribeResponseTopicID prev .icmpError = prev)
  ∧ (∀ pkt, isSuback pkt = false →
      subscribeResponseTopicID prev (.mqttsn pkt) = prev)
  ∧ (∀ flags tid mid rc,
      subscribeResponseTopicID prev (.mqttsn (.suback flags tid mid rc)) = some tid) := by
  refine ⟨rfl, ?_, fun tid mid rc => rfl, rfl, ?_, fun flags tid mid rc => rfl⟩
  · intro pkt h
    cases pkt <;> simp_all [isRegack, registerResponseTopicID]
  · intro pkt h
    cases pkt <;> simp_all [isSuback, subscribeResponseTopicID]

/-- Witness for C10: a CONNACK reply to the register exchange (not a
REGACK) leaves the previously stored topic ID 1 unchanged. -/
theorem response_topicID_frame_witness :
    registerResponseTopicID (some 1) (.mqttsn (Packet.connack 0)) = some 1 :=
  (response_topicID_frame (some 1)).2.1 (Packet.connack 0) rfl

end MqttSN
